import Mathlib

/-!
Verification of the FieldMonitoring25m pipeline specification against the
repository. The repository's web client (Next.js components under
`apps/web`), worker launch script, Dockerfiles and README are embedded from
their sources; the backend components that the spec describes (QualityGate,
JobRouter, AnalysisOrchestrator, SRProvider, the job-status read model) are
not present among the repository files, so those are modelled from the
spec's own words, as marked on each definition.

Numbers are modelled as rationals (`ℚ`); the trigonometric function and the
constant pi used by the client's geodesic area routine are abstract
parameters, since none of the verified properties depend on their values.
-/

/-! ## QualityGate (spec §4.1) -/

/-- Verdict of the quality gate: accept the scene or skip it for low quality. -/
inductive Verdict
  | ACCEPT
  | LOW_QUALITY_SKIP
  deriving DecidableEq, Repr

/-- Modelled from the spec: `QualityDecision` value (§3) with cloud cover,
valid-pixel ratio, verdict and reason. -/
structure QualityDecision where
  cloud_cover : ℚ
  valid_pixel_ratio : ℚ
  verdict : Verdict
  reason : String
  deriving DecidableEq, Repr

/-- Modelled from the spec: `QualityGate.evaluate` (§4.1); the QualityGate
implementation is not among the repository's files. ACCEPT iff
`cloud_cover <= max_cloud AND valid_pixel_ratio >= min_valid_pixel_ratio`;
otherwise LOW_QUALITY_SKIP with the reason of whichever bound failed first,
the cloud bound checked before the valid-pixel bound. -/
def QualityGate.evaluate (cloud_cover valid_pixel_ratio max_cloud
    min_valid_pixel_ratio : ℚ) : QualityDecision :=
  if max_cloud < cloud_cover then
    { cloud_cover := cloud_cover, valid_pixel_ratio := valid_pixel_ratio,
      verdict := Verdict.LOW_QUALITY_SKIP,
      reason := "cloud_cover above max_cloud" }
  else if valid_pixel_ratio < min_valid_pixel_ratio then
    { cloud_cover := cloud_cover, valid_pixel_ratio := valid_pixel_ratio,
      verdict := Verdict.LOW_QUALITY_SKIP,
      reason := "valid_pixel_ratio below min_valid_pixel_ratio" }
  else
    { cloud_cover := cloud_cover, valid_pixel_ratio := valid_pixel_ratio,
      verdict := Verdict.ACCEPT,
      reason := "accepted" }

/-! ## JobRouter (spec §4.5) and the SR provider variants (spec §4.4) -/

/-- The four SR provider variants of spec §4.4: local model inference
(SR4RS), external HTTP service, external command template (both selected by
`SR_PROVIDER=s2dr3_external` per the README), and the debug fallback. -/
inductive SRVariant
  | localModel
  | externalService
  | externalCommand
  | debugFallback
  deriving DecidableEq, Repr

/-- The `SR_PROVIDER` environment value selecting each variant, from the
README (`sr4rs`, `s2dr3_external`, `nearest`). -/
def SRVariant.providerEnv : SRVariant → String
  | SRVariant.localModel => "sr4rs"
  | SRVariant.externalService => "s2dr3_external"
  | SRVariant.externalCommand => "s2dr3_external"
  | SRVariant.debugFallback => "nearest"

/-- Modelled from the spec: `JobRouter.route` (§4.5); the JobRouter
implementation is not among the repository's files. The README states that
SR jobs route to `sr_gpu` exactly when `include_sr=true` and
`SR_PROVIDER=sr4rs`; every other job goes to `analysis_cpu`. -/
def JobRouter.route (include_sr : Bool) (variant : SRVariant) : String :=
  if include_sr && (SRVariant.providerEnv variant == "sr4rs") then "sr_gpu"
  else "analysis_cpu"

/-! ## AnalysisJob status machine (spec §4.6)

Statuses are modelled as the strings the client receives. The transition
relation is modelled from the spec (the orchestrator is not among the
repository's files); `statusVariant` is embedded from
`src/apps/web/components/RightPanel.tsx` lines 53-58. -/

/-- The job statuses of spec §4.6. -/
def analysisStatuses : List String :=
  ["QUEUED", "RUNNING", "SUCCEEDED", "SKIPPED", "FAILED"]

/-- Modelled from the spec: the status transition relation of §4.6
(`QUEUED → RUNNING → one of SUCCEEDED, SKIPPED, FAILED`, the latter three
terminal). -/
def statusStep (s t : String) : Bool :=
  (s == "QUEUED" && t == "RUNNING") ||
    (s == "RUNNING" && (t == "SUCCEEDED" || t == "SKIPPED" || t == "FAILED"))

/-- Reflexive-transitive closure of the status transition relation: the
statuses a job observed at `s` can later be observed at. -/
def statusReachable (s t : String) : Prop :=
  Relation.ReflTransGen (fun a b => statusStep a b = true) s t

/-- Embedded from `src/apps/web/components/RightPanel.tsx` lines 53-58:
the badge variant the client renders for a job or observation status. -/
def statusVariant (status : String) : String :=
  if status == "FAILED" then "danger"
  else if status == "LOW_QUALITY_SKIPPED" then "warn"
  else if status == "SUCCEEDED" then "success"
  else "soft"

/-! ## Claim theorems -/

/-- C2: with cloud_cover in [0,100] and valid_pixel_ratio in [0,1],
QualityGate.evaluate returns ACCEPT iff cloud_cover <= max_cloud and
valid_pixel_ratio >= min_valid_pixel_ratio, and whenever
cloud_cover > max_cloud it returns LOW_QUALITY_SKIP with the reason citing
the cloud bound, regardless of valid_pixel_ratio. -/
theorem quality_gate_accept_iff_and_cloud_first (cc vr mc mv : ℚ)
    (hcc : 0 ≤ cc ∧ cc ≤ 100) (hvr : 0 ≤ vr ∧ vr ≤ 1) :
    ((QualityGate.evaluate cc vr mc mv).verdict = Verdict.ACCEPT ↔
      (cc ≤ mc ∧ mv ≤ vr)) ∧
    (mc < cc →
      (QualityGate.evaluate cc vr mc mv).verdict = Verdict.LOW_QUALITY_SKIP ∧
      (QualityGate.evaluate cc vr mc mv).reason = "cloud_cover above max_cloud") := by
  constructor
  · constructor
    · intro h
      by_cases h1 : mc < cc
      · simp [QualityGate.evaluate, h1] at h
      · by_cases h2 : vr < mv
        · simp [QualityGate.evaluate, h1, h2] at h
        · exact ⟨le_of_not_lt h1, le_of_not_lt h2⟩
    · rintro ⟨h1, h2⟩
      simp [QualityGate.evaluate, not_lt.mpr h1, not_lt.mpr h2]
  · intro h1
    simp [QualityGate.evaluate, h1]

/-- Witness for C2: at cloud_cover 45, valid_pixel_ratio 0.97, max_cloud 20,
the gate skips for low quality citing the cloud bound (spec scenario A). -/
theorem quality_gate_accept_iff_and_cloud_first_witness :
    (QualityGate.evaluate 45 (97/100) 20 (6/10)).verdict = Verdict.LOW_QUALITY_SKIP ∧
    (QualityGate.evaluate 45 (97/100) 20 (6/10)).reason = "cloud_cover above max_cloud" :=
  (quality_gate_accept_iff_and_cloud_first 45 (97/100) 20 (6/10)
    (by norm_num) (by norm_num)).2 (by norm_num)

/-- C6: JobRouter.route is a pure function of the job's include_sr flag and
the deployment-selected SR variant: analysis_cpu whenever include_sr is
false; sr_gpu when include_sr is true and the variant is local-model
inference; analysis_cpu when include_sr is true and the variant is
external-service, external-command or the debug fallback. -/
theorem job_router_route_cases :
    (∀ v : SRVariant, JobRouter.route false v = "analysis_cpu") ∧
    JobRouter.route true SRVariant.localModel = "sr_gpu" ∧
    JobRouter.route true SRVariant.externalService = "analysis_cpu" ∧
    JobRouter.route true SRVariant.externalCommand = "analysis_cpu" ∧
    JobRouter.route true SRVariant.debugFallback = "analysis_cpu" := by
  refine ⟨fun v => ?_, rfl, rfl, rfl, rfl⟩
  cases v <;> rfl

/-- C1: a job status is always one of QUEUED, RUNNING, SUCCEEDED, SKIPPED,
FAILED; transitions follow QUEUED → RUNNING → one of the three terminal
statuses; SUCCEEDED, SKIPPED and FAILED admit no further transitions; a
status once RUNNING or later never reverts to QUEUED; and the client
(RightPanel.tsx statusVariant) handles the terminal skip status spelled
LOW_QUALITY_SKIPPED. -/
theorem analysis_job_status_machine :
    (∀ s t : String, statusStep s t = true →
      (s = "QUEUED" ∧ t = "RUNNING") ∨
      (s = "RUNNING" ∧ (t = "SUCCEEDED" ∨ t = "SKIPPED" ∨ t = "FAILED"))) ∧
    (∀ t : String, statusStep "SUCCEEDED" t = false ∧
      statusStep "SKIPPED" t = false ∧ statusStep "FAILED" t = false) ∧
    (∀ s t : String, statusReachable s t → s ≠ "QUEUED" → t ≠ "QUEUED") ∧
    (∀ t : String, statusReachable "QUEUED" t → t ∈ analysisStatuses) ∧
    statusVariant "LOW_QUALITY_SKIPPED" = "warn" := by
  have hstep : ∀ s t : String, statusStep s t = true →
      (s = "QUEUED" ∧ t = "RUNNING") ∨
      (s = "RUNNING" ∧ (t = "SUCCEEDED" ∨ t = "SKIPPED" ∨ t = "FAILED")) := by
    intro s t h
    simp only [statusStep, Bool.or_eq_true, Bool.and_eq_true, beq_iff_eq] at h
    tauto
  refine ⟨hstep, ?_, ?_, ?_, rfl⟩
  · intro t
    refine ⟨rfl, rfl, rfl⟩
  · intro s t h hs
    induction h with
    | refl => exact hs
    | @tail b c hsb hbc ih =>
      rcases hstep b c hbc with ⟨_, hc⟩ | ⟨_, hc⟩
      · subst hc
        decide
      · rcases hc with hc | hc | hc <;> (subst hc; decide)
  · intro t h
    induction h with
    | refl => decide
    | @tail b c hsb hbc ih =>
      rcases hstep b c hbc with ⟨_, hc⟩ | ⟨_, hc⟩
      · subst hc
        decide
      · rcases hc with hc | hc | hc <;> (subst hc; decide)

/-- Witness for C1: applying the machine theorem along the concrete run
QUEUED → RUNNING → SUCCEEDED shows SUCCEEDED never reverts to QUEUED. -/
theorem analysis_job_status_machine_witness : ("SUCCEEDED" : String) ≠ "QUEUED" :=
  analysis_job_status_machine.2.2.1 "RUNNING" "SUCCEEDED"
    (Relation.ReflTransGen.single (by decide)) (by decide)

/-! ## BandCompatibilityResolver and SR eligibility (spec §4.2) -/

/-- The index names of the analytics pipeline (README, shared-types). -/
inductive IndexName
  | NDVI
  | NDMI
  | NDWI
  | EVI
  | NDRE
  | SAVI
  deriving DecidableEq, Repr, Fintype

/-- Spectral band identifiers. -/
inductive BandId
  | blue
  | green
  | red
  | redEdge
  | nir
  | swir1
  | swir2
  deriving DecidableEq, Repr

/-- Modelled from the spec: `BandCompatibilityResolver.computable` (§4.2);
the resolver implementation is not among the repository's files. The
required-band table is implementation-defined, so it is a parameter `req`:
an index is computable iff all its required bands are present. -/
def BandCompatibilityResolver.computable (req : IndexName → Finset BandId)
    (available : Finset BandId) : Finset IndexName :=
  Finset.univ.filter (fun i => req i ⊆ available)

/-- The set of all indices when the organization's `sr_analytics_enabled`
feature flag is on, and the empty set when it is off. -/
def srFlagSet (sr_analytics_enabled : Bool) : Finset IndexName :=
  if sr_analytics_enabled then Finset.univ else ∅

/-- Modelled from the spec: the native index set the orchestrator computes
for a job (§2, §4.3): the requested indices that are computable from the
native scene bands. -/
def nativeIndexSet (req : IndexName → Finset BandId)
    (nativeBands : Finset BandId) (requested : Finset IndexName) : Finset IndexName :=
  requested.filter (fun i => req i ⊆ nativeBands)

/-- Modelled from the spec: the SR-eligible index set the orchestrator
publishes for a job (§4.2, §2 control flow): when the organization's
`sr_analytics_enabled` flag is on, the native indices that are also
computable from the bands the active SR provider's output declares;
when the flag is off, none. -/
def srEligibleIndexSet (req : IndexName → Finset BandId)
    (nativeBands srBands : Finset BandId) (sr_analytics_enabled : Bool)
    (requested : Finset IndexName) : Finset IndexName :=
  if sr_analytics_enabled then
    (nativeIndexSet req nativeBands requested).filter (fun i => req i ⊆ srBands)
  else ∅

/-- Modelled from the spec: an Observation (§3) keyed by index name: the
native map holds the job's native index set, the SR map the SR-eligible
set (empty if SR not requested or not eligible). -/
structure Observation where
  field_id : String
  observed_on : String
  status : String
  indices_native : Finset IndexName
  indices_sr : Finset IndexName

/-- Modelled from the spec: the Observation a successfully-gated job
produces (§3, §4.6). -/
def mkObservation (field_id observed_on : String)
    (req : IndexName → Finset BandId) (nativeBands srBands : Finset BandId)
    (sr_analytics_enabled : Bool) (requested : Finset IndexName) : Observation :=
  { field_id := field_id, observed_on := observed_on, status := "SUCCEEDED",
    indices_native := nativeIndexSet req nativeBands requested,
    indices_sr := srEligibleIndexSet req nativeBands srBands
      sr_analytics_enabled requested }

/-- C3: the SR-eligible index set equals the intersection of the
native-computable set, the SR-output-computable set, the feature-flag set
and the requested list; consequently it is a subset of the
native-computable set, and an Observation's SR map contains only index
names also present in its native map. -/
theorem sr_eligible_is_intersection
    (req : IndexName → Finset BandId) (nativeBands srBands : Finset BandId)
    (flag : Bool) (requested : Finset IndexName) :
    srEligibleIndexSet req nativeBands srBands flag requested =
      ((BandCompatibilityResolver.computable req nativeBands ∩
        BandCompatibilityResolver.computable req srBands) ∩
        srFlagSet flag) ∩ requested ∧
    srEligibleIndexSet req nativeBands srBands flag requested ⊆
      BandCompatibilityResolver.computable req nativeBands ∧
    ∀ field_id observed_on : String,
      (mkObservation field_id observed_on req nativeBands srBands flag
        requested).indices_sr ⊆
      (mkObservation field_id observed_on req nativeBands srBands flag
        requested).indices_native := by
  have heq : srEligibleIndexSet req nativeBands srBands flag requested =
      ((BandCompatibilityResolver.computable req nativeBands ∩
        BandCompatibilityResolver.computable req srBands) ∩
        srFlagSet flag) ∩ requested := by
    ext i
    cases flag <;>
      simp [srEligibleIndexSet, nativeIndexSet,
        BandCompatibilityResolver.computable, srFlagSet] <;>
      tauto
  refine ⟨heq, ?_, ?_⟩
  · intro i hi
    rw [heq] at hi
    simp only [Finset.mem_inter] at hi
    exact hi.1.1.1
  · intro field_id observed_on i hi
    simp only [mkObservation, srEligibleIndexSet, nativeIndexSet] at hi ⊢
    cases flag
    · simp at hi
    · simp only [if_pos] at hi
      exact Finset.mem_of_mem_filter i hi

/-- Witness for C3: with the table requiring red+NIR for NDVI, native bands
red+NIR+SWIR1, SR output bands red+NIR, flag on and NDVI+NDMI requested,
the SR-eligible set is contained in the native-computable set. -/
theorem sr_eligible_is_intersection_witness :
    srEligibleIndexSet
      (fun i => if i = IndexName.NDVI then {BandId.red, BandId.nir}
        else {BandId.nir, BandId.swir1})
      {BandId.red, BandId.nir, BandId.swir1} {BandId.red, BandId.nir}
      true {IndexName.NDVI, IndexName.NDMI} ⊆
    BandCompatibilityResolver.computable
      (fun i => if i = IndexName.NDVI then {BandId.red, BandId.nir}
        else {BandId.nir, BandId.swir1})
      {BandId.red, BandId.nir, BandId.swir1} :=
  (sr_eligible_is_intersection
    (fun i => if i = IndexName.NDVI then {BandId.red, BandId.nir}
      else {BandId.nir, BandId.swir1})
    {BandId.red, BandId.nir, BandId.swir1} {BandId.red, BandId.nir}
    true {IndexName.NDVI, IndexName.NDMI}).2.1

/-! ## AnalysisOrchestrator completion and SR failure handling (spec §4.4,
§4.6, §7) -/

/-- The SRProviderError taxonomy of spec §4.4/§7: timeout, non-2xx HTTP
response, non-zero subprocess exit code, or exception. -/
inductive SRProviderError
  | timeout
  | httpStatus (code : Nat)
  | exitCode (code : Nat)
  | exception (msg : String)
  deriving DecidableEq, Repr

/-- A human-readable description of an SR provider failure, recorded in the
job result's `sr_error` field. -/
def SRProviderError.describe : SRProviderError → String
  | SRProviderError.timeout => "SR provider timeout"
  | SRProviderError.httpStatus _ => "SR provider returned a non-2xx response"
  | SRProviderError.exitCode _ => "SR provider command exited with a non-zero code"
  | SRProviderError.exception msg => String.append "SR provider exception: " msg

/-- Outcome of the SR stage of a job: not attempted, succeeded with a list
of SR index names and a visualization flag, or failed with an
SRProviderError. -/
inductive SRRun
  | notAttempted
  | succeeded (indices : List String) (visualization : Bool)
  | failed (e : SRProviderError)

/-- Modelled from the spec: the `result_json` payload of a terminal job
(§4.6 and §6): scene_id, cloud_cover, valid_pixel_ratio, native_indices
(array length), sr_indices (array length), reason, sr_requested,
sr_visualization_generated, sr_error. -/
structure AnalysisResultJson where
  scene_id : String
  cloud_cover : ℚ
  valid_pixel_ratio : ℚ
  native_indices : Nat
  sr_indices : Nat
  reason : Option String
  sr_requested : Bool
  sr_visualization_generated : Bool
  sr_error : Option String
  deriving DecidableEq, Repr

/-- The terminal record of a job: status, result payload, error message. -/
structure JobOutcome where
  status : String
  result : Option AnalysisResultJson
  error_message : Option String
  deriving DecidableEq, Repr

/-- Modelled from the spec: how the AnalysisOrchestrator (§4.6, §7) takes a
RUNNING job to its terminal state; the orchestrator implementation is not
among the repository's files. A LOW_QUALITY_SKIP gate verdict yields
SKIPPED; a native computation error yields FAILED; otherwise the job is
SUCCEEDED, and an SR failure is only recorded in `sr_error` with zero
`sr_indices`. -/
def completeJob (scene_id : String) (gate : QualityDecision)
    (native : Except String (List String)) (sr_requested : Bool)
    (sr : SRRun) : JobOutcome :=
  match gate.verdict with
  | Verdict.LOW_QUALITY_SKIP =>
    { status := "SKIPPED",
      result := some
        { scene_id := scene_id, cloud_cover := gate.cloud_cover,
          valid_pixel_ratio := gate.valid_pixel_ratio,
          native_indices := 0, sr_indices := 0,
          reason := some gate.reason, sr_requested := sr_requested,
          sr_visualization_generated := false, sr_error := none },
      error_message := none }
  | Verdict.ACCEPT =>
    match native with
    | Except.error msg =>
      { status := "FAILED", result := none, error_message := some msg }
    | Except.ok nativeIndices =>
      { status := "SUCCEEDED",
        result := some
          { scene_id := scene_id, cloud_cover := gate.cloud_cover,
            valid_pixel_ratio := gate.valid_pixel_ratio,
            native_indices := nativeIndices.length,
            sr_indices :=
              match sr with
              | SRRun.succeeded indices _ => indices.length
              | _ => 0,
            reason := none, sr_requested := sr_requested,
            sr_visualization_generated :=
              match sr with
              | SRRun.succeeded _ visualization => visualization
              | _ => false,
            sr_error :=
              match sr with
              | SRRun.failed e => some (SRProviderError.describe e)
              | _ => none },
        error_message := none }

/-- C4: when the gate accepted and native index computation succeeded, an
SRProviderError of any kind never changes the terminal status away from
SUCCEEDED: the job finishes SUCCEEDED with `sr_error` populated (a
non-empty string) and `sr_indices` of length 0, not FAILED. -/
theorem sr_provider_error_never_fails_job (scene_id : String)
    (gate : QualityDecision) (nativeIndices : List String)
    (sr_requested : Bool) (e : SRProviderError)
    (hgate : gate.verdict = Verdict.ACCEPT) :
    (completeJob scene_id gate (Except.ok nativeIndices) sr_requested
        (SRRun.failed e)).status = "SUCCEEDED" ∧
    (completeJob scene_id gate (Except.ok nativeIndices) sr_requested
        (SRRun.failed e)).status ≠ "FAILED" ∧
    (completeJob scene_id gate (Except.ok nativeIndices) sr_requested
        (SRRun.failed e)).result =
      some
        { scene_id := scene_id, cloud_cover := gate.cloud_cover,
          valid_pixel_ratio := gate.valid_pixel_ratio,
          native_indices := nativeIndices.length, sr_indices := 0,
          reason := none, sr_requested := sr_requested,
          sr_visualization_generated := false,
          sr_error := some (SRProviderError.describe e) } ∧
    SRProviderError.describe e ≠ "" := by
  refine ⟨?_, ?_, ?_, ?_⟩
  · simp [completeJob, hgate]
  · simp [completeJob, hgate]
  · simp [completeJob, hgate]
  · cases e with
    | exception msg =>
      intro h
      have hdata := congrArg String.data h
      simp [SRProviderError.describe, String.append] at hdata
    | timeout => simp [SRProviderError.describe]
    | httpStatus code => simp [SRProviderError.describe]
    | exitCode code => simp [SRProviderError.describe]

/-- Witness for C4: scenario C of the spec — a gate-accepted job with two
native indices whose external command exited non-zero finishes SUCCEEDED
with `sr_error` populated and zero SR indices. -/
theorem sr_provider_error_never_fails_job_witness :
    (completeJob "S2A_MSIL2A_20240601" (QualityGate.evaluate 10 (97/100) 20 (6/10))
        (Except.ok ["NDVI", "NDMI"]) true
        (SRRun.failed (SRProviderError.exitCode 1))).status = "SUCCEEDED" :=
  (sr_provider_error_never_fails_job "S2A_MSIL2A_20240601"
    (QualityGate.evaluate 10 (97/100) 20 (6/10)) ["NDVI", "NDMI"] true
    (SRProviderError.exitCode 1) (by norm_num [QualityGate.evaluate])).1

/-! ## Job status read model (spec §6) and the client's declared types
(`src/apps/web/lib/api.ts`) -/

/-- A JSON-like value, enough to serialize the read model. -/
inductive JVal
  | s (v : String)
  | q (v : ℚ)
  | n (v : Nat)
  | b (v : Bool)
  | null

/-- The key/value pairs of a serialized `result_json` payload; optional
fields serialize as null. -/
def AnalysisResultJson.toPairs (r : AnalysisResultJson) : List (String × JVal) :=
  [("scene_id", JVal.s r.scene_id),
   ("cloud_cover", JVal.q r.cloud_cover),
   ("valid_pixel_ratio", JVal.q r.valid_pixel_ratio),
   ("native_indices", JVal.n r.native_indices),
   ("sr_indices", JVal.n r.sr_indices),
   ("reason", (r.reason).elim JVal.null JVal.s),
   ("sr_requested", JVal.b r.sr_requested),
   ("sr_visualization_generated", JVal.b r.sr_visualization_generated),
   ("sr_error", (r.sr_error).elim JVal.null JVal.s)]

/-- Modelled from the spec: the job status read model returned to clients
(§6): `{id, status, queue, result_json?, error_message?}`; the API handler
is not among the repository's files. -/
structure JobStatusReadModel where
  id : String
  status : String
  queue : String
  result_json : Option AnalysisResultJson
  error_message : Option String

/-- The keys a serialized read model carries: the optional fields appear
only when populated. -/
def JobStatusReadModel.keys (m : JobStatusReadModel) : List String :=
  ["id", "status", "queue"] ++
    ((m.result_json).elim [] (fun _ => ["result_json"])) ++
    ((m.error_message).elim [] (fun _ => ["error_message"]))

/-- The field names of the read model per the spec sentence in §6. -/
def jobReadModelFields : List String :=
  ["id", "status", "queue", "result_json", "error_message"]

/-- The `result_json` field names per the spec sentence in §6. -/
def analysisResultJsonFields : List String :=
  ["scene_id", "cloud_cover", "valid_pixel_ratio", "native_indices",
   "sr_indices", "reason", "sr_requested", "sr_visualization_generated",
   "sr_error"]

/-- Embedded from `src/apps/web/lib/api.ts` lines 117-121: the fields of
the client's declared `AnalysisJob` interface. -/
def clientAnalysisJobFields : List String := ["id", "status", "queue"]

/-- Embedded from the client components: the `AnalysisJob` fields the
client code reads (`RightPanel.tsx` lines 95-98 and 342-351 read
`result_json` and `error_message`; the HomePage analysis status effect,
`src/unnamed/part_006` lines 467-507, reads `id`, `status`, `result_json`
and `error_message`). -/
def clientAnalysisJobReads : List String :=
  ["id", "status", "result_json", "error_message"]

/-- C5: the job status read model is exactly {id, status, queue,
result_json?, error_message?} and a serialized result_json carries exactly
the nine documented keys, while the client's declared AnalysisJob type has
only id, status and queue even though client code reads result_json and
error_message from it. -/
theorem job_read_model_fields_exact :
    (∀ r : AnalysisResultJson,
      (AnalysisResultJson.toPairs r).map Prod.fst = analysisResultJsonFields) ∧
    (∀ m : JobStatusReadModel,
      JobStatusReadModel.keys m ⊆ jobReadModelFields ∧
      clientAnalysisJobFields ⊆ JobStatusReadModel.keys m) ∧
    jobReadModelFields = clientAnalysisJobFields ++ ["result_json", "error_message"] ∧
    ("result_json" ∈ clientAnalysisJobReads ∧
      "result_json" ∉ clientAnalysisJobFields) ∧
    ("error_message" ∈ clientAnalysisJobReads ∧
      "error_message" ∉ clientAnalysisJobFields) ∧
    clientAnalysisJobReads ⊆ jobReadModelFields := by
  refine ⟨fun r => rfl, fun m => ⟨?_, ?_⟩, rfl, by decide, by decide, by decide⟩
  · rcases m with ⟨mid, mstatus, mqueue, mrj, mem⟩
    intro x hx
    rcases mrj with _ | rj <;> rcases mem with _ | em <;>
      (simp only [JobStatusReadModel.keys, Option.elim, List.append_nil,
        List.mem_append, List.mem_cons, List.mem_singleton,
        List.not_mem_nil, or_false, false_or] at hx;
       simp only [jobReadModelFields, List.mem_cons, List.mem_singleton];
       tauto)
  · rcases m with ⟨mid, mstatus, mqueue, mrj, mem⟩
    intro x hx
    rcases mrj with _ | rj <;> rcases mem with _ | em <;>
      (simp only [clientAnalysisJobFields, List.mem_cons, List.mem_singleton,
        List.not_mem_nil, or_false] at hx;
       simp only [JobStatusReadModel.keys, Option.elim, List.append_nil,
         List.mem_append, List.mem_cons, List.mem_singleton,
         List.not_mem_nil, or_false, false_or];
       tauto)

/-! ## GPU worker launch configurations (spec §5)

Embedded from `src/apps/worker/scripts/start_gpu_worker.sh` line 59 and
`src/infra/docker/worker.gpu.Dockerfile` line 29. -/

/-- The command the GPU startup script execs
(`start_gpu_worker.sh` line 59). -/
def startGpuWorkerCommand : List String :=
  ["celery", "-A", "worker.celery_app.celery_app", "worker", "-Q", "sr_gpu",
   "-l", "info", "--concurrency=1"]

/-- The default CMD of the worker-gpu image
(`worker.gpu.Dockerfile` line 29). -/
def workerGpuDockerfileCmd : List String :=
  ["celery", "-A", "worker.celery_app.celery_app", "worker", "-Q", "sr_gpu",
   "-l", "info"]

/-- Whether a celery command line consumes the `sr_gpu` queue: a `-Q`
argument immediately followed by `sr_gpu`. -/
def consumesSrGpuQueue : List String → Bool
  | [] => false
  | [_] => false
  | a :: b :: rest => (a == "-Q" && b == "sr_gpu") || consumesSrGpuQueue (b :: rest)

/-- Whether a celery command line pins worker concurrency to exactly 1. -/
def hasConcurrencyOne (cmd : List String) : Bool :=
  cmd.contains "--concurrency=1"

/-- A concurrency-1 worker executes its jobs back to back: job `i` of the
given durations runs over the half-open interval
`[starts i, starts i + durations i)` where each start is the sum of the
previous durations. -/
def sequentialStart (durations : List Nat) (i : Nat) : Nat :=
  (durations.take i).sum

/-- Two half-open intervals `[s1, s1+d1)` and `[s2, s2+d2)` overlap when
some instant lies in both. -/
def intervalsOverlap (s1 d1 s2 d2 : Nat) : Prop :=
  ∃ t : Nat, s1 ≤ t ∧ t < s1 + d1 ∧ s2 ≤ t ∧ t < s2 + d2

/-- The sum of a prefix of a list of naturals is at most the full sum. -/
theorem sum_take_le_sum (l : List Nat) (i : Nat) : (l.take i).sum ≤ l.sum := by
  induction l generalizing i with
  | nil => simp
  | cons d rest ih =>
    cases i with
    | zero => simp
    | succ n =>
      simp only [List.take_succ_cons, List.sum_cons]
      exact Nat.add_le_add_left (ih n) d

/-- A concurrency-1 worker's job starts are monotone in the job index. -/
theorem sequentialStart_mono (durations : List Nat) (i j : Nat) (h : i ≤ j) :
    sequentialStart durations i ≤ sequentialStart durations j := by
  unfold sequentialStart
  have htake : durations.take i = (durations.take j).take i := by
    rw [List.take_take, Nat.min_eq_left h]
  rw [htake]
  exact sum_take_le_sum (durations.take j) i

/-- On a concurrency-1 worker, each job's start is its predecessor's start
plus that predecessor's duration. -/
theorem sequentialStart_succ (durations : List Nat) :
    ∀ i, i < durations.length →
      sequentialStart durations (i + 1) =
        sequentialStart durations i + durations.getD i 0 := by
  induction durations with
  | nil =>
    intro i h
    simp at h
  | cons d rest ih =>
    intro i h
    cases i with
    | zero => simp [sequentialStart]
    | succ n =>
      have hn : n < rest.length := by simpa using h
      have hrec := ih n hn
      simp only [sequentialStart, List.take_succ_cons, List.sum_cons,
        List.getD_cons_succ] at hrec ⊢
      omega

/-- C7 (code evidence): the GPU startup script starts the `sr_gpu` worker
pinned to concurrency 1, under which two jobs dispatched to the same
worker run in non-overlapping RUNNING intervals — but the worker-gpu
Dockerfile's default CMD starts the `sr_gpu` worker with no concurrency
limit at all. -/
theorem sr_gpu_concurrency_configuration :
    consumesSrGpuQueue startGpuWorkerCommand = true ∧
    hasConcurrencyOne startGpuWorkerCommand = true ∧
    consumesSrGpuQueue workerGpuDockerfileCmd = true ∧
    hasConcurrencyOne workerGpuDockerfileCmd = false ∧
    (∀ (durations : List Nat) (i j : Nat), i < j → j < durations.length →
      ¬ intervalsOverlap (sequentialStart durations i) (durations.getD i 0)
        (sequentialStart durations j) (durations.getD j 0)) := by
  refine ⟨by decide, by decide, by decide, by decide, ?_⟩
  intro durations i j hij hj
  rintro ⟨t, hs1, he1, hs2, he2⟩
  have hi : i < durations.length := lt_trans hij hj
  have hstep1 := sequentialStart_succ durations i hi
  have hmono := sequentialStart_mono durations (i + 1) j hij
  omega

/-! ## Client geometry area (`src/unnamed/part_005`, `@/lib/geo`)

Embedded from `computeGeometryAreaHa` and its helpers. Coordinates are
rationals and GeoJSON positions are (longitude, latitude) pairs; `Math.PI`
and `Math.sin` are abstract parameters `pi` and `sin`, since the verified
properties hold for every choice of them. -/

/-- GeoJSON geometry, with the coordinate payloads the area routine
inspects. -/
inductive Geometry
  | point (c : ℚ × ℚ)
  | multiPoint (c : List (ℚ × ℚ))
  | lineString (c : List (ℚ × ℚ))
  | multiLineString (c : List (List (ℚ × ℚ)))
  | polygon (c : List (List (ℚ × ℚ)))
  | multiPolygon (c : List (List (List (ℚ × ℚ))))
  | geometryCollection
  deriving DecidableEq

/-- Whether the geometry type is Polygon or MultiPolygon. -/
def Geometry.isAreal : Geometry → Bool
  | Geometry.polygon _ => true
  | Geometry.multiPolygon _ => true
  | _ => false

/-- `EARTH_RADIUS_M` from `src/unnamed/part_005` line 1. -/
def EARTH_RADIUS_M : ℚ := 6378137

/-- `toRadians` from `src/unnamed/part_005` lines 3-5. -/
def toRadians (pi v : ℚ) : ℚ := v * pi / 180

/-- `ringAreaSquareMeters` from `src/unnamed/part_005` lines 7-24: spherical
excess accumulation over the ring's closed edge cycle; a ring with fewer
than 3 positions has zero area. -/
def ringAreaSquareMeters (pi : ℚ) (sin : ℚ → ℚ) (ring : List (ℚ × ℚ)) : ℚ :=
  if ring.length < 3 then 0
  else
    ((List.range ring.length).foldl
      (fun total i =>
        let current := ring.getD i (0, 0)
        let next := ring.getD ((i + 1) % ring.length) (0, 0)
        total + (toRadians pi next.1 - toRadians pi current.1) *
          (2 + sin (toRadians pi current.2) + sin (toRadians pi next.2)))
      0) * EARTH_RADIUS_M * EARTH_RADIUS_M / 2

/-- `polygonAreaSquareMeters` from `src/unnamed/part_005` lines 26-36:
absolute outer-ring area minus the absolute areas of the holes. -/
def polygonAreaSquareMeters (pi : ℚ) (sin : ℚ → ℚ) :
    List (List (ℚ × ℚ)) → ℚ
  | [] => 0
  | outer :: holes =>
    |ringAreaSquareMeters pi sin outer| -
      holes.foldl (fun sum ring => sum + |ringAreaSquareMeters pi sin ring|) 0

/-- `computeGeometryAreaHa` from `src/unnamed/part_005` lines 38-54:
hectares for Polygon and MultiPolygon geometries, null for every other
geometry type. -/
def computeGeometryAreaHa (pi : ℚ) (sin : ℚ → ℚ) : Geometry → Option ℚ
  | Geometry.polygon coordinates =>
    some (|polygonAreaSquareMeters pi sin coordinates| / 10000)
  | Geometry.multiPolygon coordinates =>
    some (|coordinates.foldl
      (fun sum polygonCoords => sum + polygonAreaSquareMeters pi sin polygonCoords)
      0| / 10000)
  | _ => none

/-- C8: computeGeometryAreaHa returns null exactly when the geometry type
is neither Polygon nor MultiPolygon; for Polygon and MultiPolygon inputs it
returns a non-negative number of hectares; and any ring with fewer than 3
positions contributes zero area. -/
theorem computeGeometryAreaHa_spec (pi : ℚ) (sin : ℚ → ℚ) :
    (∀ g : Geometry,
      computeGeometryAreaHa pi sin g = none ↔ Geometry.isAreal g = false) ∧
    (∀ (g : Geometry) (a : ℚ), computeGeometryAreaHa pi sin g = some a → 0 ≤ a) ∧
    (∀ ring : List (ℚ × ℚ), ring.length < 3 →
      ringAreaSquareMeters pi sin ring = 0) := by
  refine ⟨?_, ?_, ?_⟩
  · intro g
    cases g <;> simp [computeGeometryAreaHa, Geometry.isAreal]
  · intro g a h
    cases g with
    | polygon coordinates =>
      simp only [computeGeometryAreaHa, Option.some.injEq] at h
      subst h
      positivity
    | multiPolygon coordinates =>
      simp only [computeGeometryAreaHa, Option.some.injEq] at h
      subst h
      positivity
    | point c => simp [computeGeometryAreaHa] at h
    | multiPoint c => simp [computeGeometryAreaHa] at h
    | lineString c => simp [computeGeometryAreaHa] at h
    | multiLineString c => simp [computeGeometryAreaHa] at h
    | geometryCollection => simp [computeGeometryAreaHa] at h
  · intro ring h
    simp only [ringAreaSquareMeters]
    rw [if_pos h]

/-- Witness for C8: a GeometryCollection has no area (null), whatever pi
and sin are taken to be. -/
theorem computeGeometryAreaHa_spec_witness :
    computeGeometryAreaHa (22/7) (fun _ => 0) Geometry.geometryCollection = none :=
  ((computeGeometryAreaHa_spec (22/7) (fun _ => 0)).1 Geometry.geometryCollection).mpr rfl

/-! ## Left panel AOI gating (`src/unnamed/part_007`, LeftPanel) -/

/-- Embedded from `src/unnamed/part_007` line 110: whether a drawn area is
available (a finite number; rationals are always finite here). -/
def hasDrawnArea (drawnAreaHa : Option ℚ) : Bool :=
  drawnAreaHa.isSome

/-- Embedded from `src/unnamed/part_007` line 111: whether the drawn area
exceeds the 10,000 ha cap. -/
def exceedsAreaCap (drawnAreaHa : Option ℚ) : Bool :=
  hasDrawnArea drawnAreaHa &&
    (match drawnAreaHa with
     | some a => decide (10000 < a)
     | none => false)

/-- Embedded from `src/unnamed/part_007` lines 353-362: the disabled
condition of the Save Drawn Polygon button. -/
def saveDrawnPolygonDisabled (canRunFieldActions : Bool) (fieldName : String)
    (isCreatingField : Bool) (drawnAreaHa : Option ℚ) : Bool :=
  !canRunFieldActions || fieldName.trim == "" || isCreatingField ||
    exceedsAreaCap drawnAreaHa

/-- Embedded from `src/unnamed/part_007` lines 386-397: the disabled
condition of the Upload Polygon File button. -/
def uploadPolygonFileDisabled (canRunFieldActions hasFile : Bool)
    (fieldName : String) (isUploadingField : Bool)
    (drawnAreaHa : Option ℚ) : Bool :=
  !canRunFieldActions || !hasFile || fieldName.trim == "" || isUploadingField ||
    exceedsAreaCap drawnAreaHa

/-- C9: whenever the drawn polygon's computed area exceeds 10,000 hectares,
the Save Drawn Polygon and Upload Polygon File buttons are both disabled,
whatever the remaining panel state is. -/
theorem oversized_aoi_disables_field_creation
    (canRunFieldActions hasFile isCreatingField isUploadingField : Bool)
    (fieldName : String) (a : ℚ) (ha : 10000 < a) :
    saveDrawnPolygonDisabled canRunFieldActions fieldName isCreatingField
      (some a) = true ∧
    uploadPolygonFileDisabled canRunFieldActions hasFile fieldName
      isUploadingField (some a) = true := by
  have hcap : exceedsAreaCap (some a) = true := by
    simp [exceedsAreaCap, hasDrawnArea, ha]
  constructor
  · simp [saveDrawnPolygonDisabled, hcap]
  · simp [uploadPolygonFileDisabled, hcap]

/-- Witness for C9: a drawn area of 20,000 ha disables both buttons even
with every other precondition satisfied. -/
theorem oversized_aoi_disables_field_creation_witness :
    saveDrawnPolygonDisabled true "Field 1" false (some 20000) = true ∧
    uploadPolygonFileDisabled true true "Field 1" false (some 20000) = true :=
  oversized_aoi_disables_field_creation true true false false "Field 1" 20000
    (by norm_num)

/-! ## Scene footprint rendering (`src/unnamed/part_008`, MapWorkspace) -/

/-- Embedded from `src/apps/web/lib/api.ts` lines 144-154: the scene fields
`toFootprintFeatureCollection` inspects. -/
structure ImageryItem where
  scene_id : String
  footprint_geojson : Option Geometry
  bbox : Option (List ℚ)
  deriving DecidableEq

/-- A footprint feature: scene id and selected flag as properties, and a
Polygon or MultiPolygon geometry. -/
structure FootprintFeature where
  scene_id : String
  selected : Bool
  geometry : Geometry
  deriving DecidableEq

/-- Embedded from `src/unnamed/part_008` lines 292-295: the comma-separated
selected scene ids, trimmed and with empty entries dropped. -/
def selectedSceneIds (selectedSceneId : String) : List String :=
  ((selectedSceneId.splitOn ",").map String.trim).filter (fun v => v != "")

/-- The rectangle polygon built from a scene bbox
(`src/unnamed/part_008` lines 330-343). -/
def bboxRectangle (minLon minLat maxLon maxLat : ℚ) : Geometry :=
  Geometry.polygon [[(minLon, minLat), (maxLon, minLat), (maxLon, maxLat),
    (minLon, maxLat), (minLon, minLat)]]

/-- Embedded from `src/unnamed/part_008` lines 318-343: the bbox fallback
for a selected scene without a polygonal footprint; requires a bbox of
exactly 4 values (always finite over the rationals) with minLon < maxLon
and minLat < maxLat. -/
def bboxFeature (scene : ImageryItem) : Option FootprintFeature :=
  match scene.bbox with
  | some [minLon, minLat, maxLon, maxLat] =>
    if maxLon ≤ minLon ∨ maxLat ≤ minLat then none
    else some { scene_id := scene.scene_id, selected := true,
                geometry := bboxRectangle minLon minLat maxLon maxLat }
  | _ => none

/-- Embedded from `src/unnamed/part_008` lines 304-344: the loop body of
`toFootprintFeatureCollection` for one scene: skip unselected scenes, use a
Polygon/MultiPolygon footprint directly, otherwise fall back to the bbox
rectangle. -/
def footprintFeature (ids : List String) (scene : ImageryItem) :
    Option FootprintFeature :=
  if scene.scene_id ∈ ids then
    match scene.footprint_geojson with
    | some g =>
      if Geometry.isAreal g then
        some { scene_id := scene.scene_id, selected := true, geometry := g }
      else bboxFeature scene
    | none => bboxFeature scene
  else none

/-- Embedded from `src/unnamed/part_008` lines 288-347:
`toFootprintFeatureCollection`, returning the feature list of the
collection. -/
def toFootprintFeatureCollection (imageryResults : List ImageryItem)
    (selectedSceneId : String) : List FootprintFeature :=
  let ids := selectedSceneIds selectedSceneId
  if ids.isEmpty then []
  else imageryResults.filterMap (footprintFeature ids)

/-- A produced bbox feature pins down the scene bbox shape and bounds. -/
theorem bboxFeature_spec (scene : ImageryItem) (f : FootprintFeature)
    (h : bboxFeature scene = some f) :
    f.scene_id = scene.scene_id ∧ f.selected = true ∧
    ∃ w s e n : ℚ, scene.bbox = some [w, s, e, n] ∧ w < e ∧ s < n ∧
      f.geometry = bboxRectangle w s e n := by
  unfold bboxFeature at h
  split at h
  · next w s e n heq =>
    split at h
    · exact absurd h (by simp)
    · next hcond =>
      push_neg at hcond
      injection h with hf
      subst hf
      exact ⟨rfl, rfl, w, s, e, n, heq, hcond.1, hcond.2, rfl⟩
  · exact absurd h (by simp)

/-- A produced feature carries its scene's id, is marked selected, and the
scene is among the selected ids. -/
theorem footprintFeature_spec (ids : List String) (scene : ImageryItem)
    (f : FootprintFeature) (h : footprintFeature ids scene = some f) :
    f.scene_id = scene.scene_id ∧ f.selected = true ∧ scene.scene_id ∈ ids := by
  unfold footprintFeature at h
  split at h
  · next hmem =>
    split at h
    · next g heq =>
      split at h
      · injection h with hf
        subst hf
        exact ⟨rfl, rfl, hmem⟩
      · obtain ⟨h1, h2, _⟩ := bboxFeature_spec scene f h
        exact ⟨h1, h2, hmem⟩
    · obtain ⟨h1, h2, _⟩ := bboxFeature_spec scene f h
      exact ⟨h1, h2, hmem⟩
  · exact absurd h (by simp)

/-- C10: every produced footprint feature belongs to a scene among the
comma-separated selected ids and carries properties.selected = true; an id
string with no ids yields the empty collection; and a scene without a
Polygon/MultiPolygon footprint yields only a bbox rectangle feature, and
only when its bbox has exactly 4 values with minLon < maxLon and
minLat < maxLat. -/
theorem footprint_collection_spec :
    (∀ (scenes : List ImageryItem) (sel : String) (f : FootprintFeature),
      f ∈ toFootprintFeatureCollection scenes sel →
      f.scene_id ∈ selectedSceneIds sel ∧ f.selected = true) ∧
    (∀ (scenes : List ImageryItem) (sel : String),
      selectedSceneIds sel = [] → toFootprintFeatureCollection scenes sel = []) ∧
    (∀ (ids : List String) (scene : ImageryItem) (f : FootprintFeature),
      (∀ g, scene.footprint_geojson = some g → Geometry.isAreal g = false) →
      footprintFeature ids scene = some f →
      ∃ w s e n : ℚ, scene.bbox = some [w, s, e, n] ∧ w < e ∧ s < n ∧
        f.geometry = bboxRectangle w s e n) := by
  refine ⟨?_, ?_, ?_⟩
  · intro scenes sel f hf
    by_cases hids : (selectedSceneIds sel).isEmpty = true
    · simp [toFootprintFeatureCollection, hids] at hf
    · simp only [toFootprintFeatureCollection, hids, if_false,
        Bool.false_eq_true] at hf
      rw [List.mem_filterMap] at hf
      obtain ⟨scene, _, hsome⟩ := hf
      obtain ⟨h1, h2, h3⟩ := footprintFeature_spec _ scene f hsome
      rw [h1]
      exact ⟨h3, h2⟩
  · intro scenes sel h
    simp [toFootprintFeatureCollection, h]
  · intro ids scene f hng h
    unfold footprintFeature at h
    split at h
    · split at h
      · next g heq =>
        split at h
        · next hareal =>
          rw [hng g heq] at hareal
          simp at hareal
        · exact (bboxFeature_spec scene f h).2.2
      · exact (bboxFeature_spec scene f h).2.2
    · exact absurd h (by simp)

/-- Witness for C10: a selected scene without a polygonal footprint but
with bbox [0, 0, 1, 1] yields exactly the bbox rectangle feature, and the
bbox bounds are strictly ordered. -/
theorem footprint_collection_spec_witness :
    ∃ w s e n : ℚ,
      (ImageryItem.mk "S1" none (some [0, 0, 1, 1])).bbox = some [w, s, e, n] ∧
      w < e ∧ s < n ∧
      (FootprintFeature.mk "S1" true (bboxRectangle 0 0 1 1)).geometry =
        bboxRectangle w s e n :=
  footprint_collection_spec.2.2 ["S1"]
    (ImageryItem.mk "S1" none (some [0, 0, 1, 1]))
    (FootprintFeature.mk "S1" true (bboxRectangle 0 0 1 1))
    (fun g h => by simp at h) (by decide)
